import Mathlib

/-!
Verification of the Enterprise-Scale Predictive Analytics and Decision
Support System repository.

Shallow embedding of the relevant parts of the code base:
  * `app/streamlit_app.py` — monitoring dashboard: risk thresholds,
    prediction logging (`log_prediction`), script control flow;
  * `src/rfm_segmentation.py` — `RFMSegmenter.build_rfm` and
    `RFMSegmenter.revenue_contribution`;
  * `src/feature_engineering.py` — `DeliveryFeatureEngineer.transform`.

Dataframes are modelled as lists of rows; a CSV cell is a tagged value
(`Cell`), a dataframe column is a `(name, cell)` pair; missing values
(`NaN` / `NaT`) are `Option.none` (or `Cell.na` in CSV rows); numeric
values are exact rationals; timestamps are seconds since the Unix epoch.
-/

namespace EnterpriseAnalytics

/-- Cell of a CSV row / dataframe: a number, a string, a timestamp or a
missing value (NaN). -/
inductive Cell
  | num (q : ℚ)
  | str (s : String)
  | time (t : Nat)
  | na
  deriving DecidableEq

/-- One named dataframe column of a single-row frame. -/
abbrev Column := String × Cell

/-- Values of the eight sidebar widgets of `app/streamlit_app.py`
(lines 117-129). -/
structure DashboardInputs where
  purchase_hour : ℚ
  purchase_dayofweek : ℚ
  purchase_month : ℚ
  approval_delay_hours : ℚ
  carrier_delay_hours : ℚ
  estimated_delivery_days : ℚ
  total_payment_value : ℚ
  payment_installments : ℚ
  deriving DecidableEq

/-- Column order of the dict literal building `input_data`
(`app/streamlit_app.py` lines 135-144). -/
def FEATURE_ORDER : List String :=
  ["purchase_hour", "purchase_dayofweek", "purchase_month",
   "approval_delay_hours", "carrier_delay_hours", "estimated_delivery_days",
   "total_payment_value", "payment_installments"]

/-- The one-row dataframe `input_data` (`app/streamlit_app.py` 135-144). -/
def input_data (i : DashboardInputs) : List Column :=
  [("purchase_hour", .num i.purchase_hour),
   ("purchase_dayofweek", .num i.purchase_dayofweek),
   ("purchase_month", .num i.purchase_month),
   ("approval_delay_hours", .num i.approval_delay_hours),
   ("carrier_delay_hours", .num i.carrier_delay_hours),
   ("estimated_delivery_days", .num i.estimated_delivery_days),
   ("total_payment_value", .num i.total_payment_value),
   ("payment_installments", .num i.payment_installments)]

/-- Value of column `n` in a single-row frame; `Cell.na` when the column
is absent (pandas fills reindexed missing columns with NaN). -/
def lookupCell (row : List Column) (n : String) : Cell :=
  match row.find? (fun c => c.1 = n) with
  | some c => c.2
  | none => .na

/-- Embedding of `input_data.reindex(columns=EXPECTED_FEATURES)`
(`app/streamlit_app.py` line 152). -/
def reindex (row : List Column) (cols : List String) : List Column :=
  cols.map (fun n => (n, lookupCell row n))

/-- Embedding of the `log_entry` construction inside `log_prediction`
(`app/streamlit_app.py` lines 74-77): the input row with `probability`,
`risk_level` and `timestamp` columns appended. -/
def log_entry (row : List Column) (probability : ℚ)
    (risk_level : String) (timestamp : Nat) : List Column :=
  row ++ [("probability", .num probability),
          ("risk_level", .str risk_level),
          ("timestamp", .time timestamp)]

/-- Header line written by `to_csv(..., header=True)`. -/
def headerRow (entry : List Column) : List Cell :=
  entry.map (fun c => .str c.1)

/-- Data line written by `to_csv` (the cell values, no index). -/
def valuesRow (entry : List Column) : List Cell :=
  entry.map (fun c => c.2)

/-- Effect of the critical section of `log_prediction` on the log file
(`app/streamlit_app.py` lines 79-83): when the file exists, append the
data row (`mode="a", header=False`); otherwise create it with a header
row followed by the data row (`mode="w", header=True`). The file is
`none` when `logs/prediction_log.csv` does not exist. -/
def log_prediction_file (file : Option (List (List Cell)))
    (entry : List Column) : List (List Cell) :=
  match file with
  | some content => content ++ [valuesRow entry]
  | none => [headerRow entry, valuesRow entry]

/-- The three risk levels of the dashboards. -/
inductive RiskLevel
  | Low
  | Medium
  | High
  deriving DecidableEq

/-- Risk classification of `app/streamlit_app.py` lines 169-174. -/
def riskLevel (probability medium_threshold high_threshold : ℚ) : RiskLevel :=
  if probability ≥ high_threshold then .High
  else if probability ≥ medium_threshold then .Medium
  else .Low

/-- String shown and logged for a risk level. -/
def RiskLevel.toLabel : RiskLevel → String
  | .Low => "Low"
  | .Medium => "Medium"
  | .High => "High"

/-- Modelled from the spec: the trained delivery-delay model
(`models/delivery_delay_model.pkl`) and the `DeliveryDelayModelTrainer`
that produces it are absent from the source tree; the spec describes the
model as a gradient-boosting (LightGBM) binary classifier of the
`is_delayed` target, so `predict_proba` returns, for each input row, the
class-probability vector `[P(class 0), P(class 1)]`. The classifier
itself is abstracted as a function `m` from an input row to the
positive-class probability. -/
def predict_proba (m : List Column → ℚ) (df : List (List Column)) :
    List (List ℚ) :=
  df.map (fun row => [1 - m row, m row])

/-- Embedding of `float(model.predict_proba(input_data)[0][1])`
(`app/streamlit_app.py` line 163, `src/model_training.py` line 105). -/
def posProb (m : List Column → ℚ) (df : List (List Column)) : ℚ :=
  ((predict_proba m df).getD 0 []).getD 1 0

/-- One button press of the prediction section of `app/streamlit_app.py`
(lines 160-189): reindex the inputs, compute the probability, classify
it, and append to the log file. Returns the rendered outcome
(probability, risk level) together with the new log-file state. -/
def dashboard_predict_step (m : List Column → ℚ) (i : DashboardInputs)
    (EXPECTED_FEATURES : List String) (medium_threshold high_threshold : ℚ)
    (timestamp : Nat) (file : Option (List (List Cell))) :
    (ℚ × RiskLevel) × List (List Cell) :=
  let df := reindex (input_data i) EXPECTED_FEATURES
  let probability := posProb m [df]
  let level := riskLevel probability medium_threshold high_threshold
  ((probability, level),
   log_prediction_file file (log_entry df probability level.toLabel timestamp))

/-! ## Dashboard script control flow (`app/streamlit_app.py`, module level) -/

/-- Element rendered by the dashboard script: either the message printed
by one of the generic exception handlers (`st.error` / `st.warning`
inside an `except` block) or any other rendered element. -/
inductive DisplayItem
  | message (s : String)
  | output (s : String)
  deriving DecidableEq

/-- Output of the header section (lines 89-98). -/
def headerItems : List DisplayItem := [.output "header"]

/-- Output of the risk-overview block of a successful prediction
(lines 176-198). -/
def riskOverviewItems : List DisplayItem :=
  [.output "risk overview metrics", .output "risk banner"]

/-- Output of a successful SHAP explainability block (lines 205-237). -/
def shapChartItems : List DisplayItem := [.output "shap chart"]

/-- Output of the sections following the prediction block: monitoring
overview (248-304), global feature importance (312-327) and operational
insights (334-342). -/
def tailItems : List DisplayItem :=
  [.output "monitoring overview", .output "feature importance chart",
   .output "operational insights"]

/-- Control flow of `app/streamlit_app.py` as a function of which
fallible calls raise. `st.stop()` (after the model-loading handler,
lines 56-58, and the prediction handler, lines 164-166) aborts the whole
script; the SHAP handler (lines 239-240) issues `st.warning` and falls
through, so the sections after the prediction block still render. -/
def streamlit_app (predict_button load_fails predict_fails shap_fails : Bool) :
    List DisplayItem :=
  if load_fails then [.message "Model loading failed"]
  else if predict_button && predict_fails then
    headerItems ++ [.message "Prediction failed"]
  else
    headerItems ++
    (if predict_button then
      riskOverviewItems ++
        (if shap_fails then [.message "Explainability unavailable"]
         else shapChartItems)
     else []) ++
    tailItems

/-- Property the spec asserts of every run: any message issued by an
exception handler is the last thing the dashboard renders. -/
def haltsAfterHandlerMessage (items : List DisplayItem) : Prop :=
  ∀ i s, items.get? i = some (.message s) → items.length = i + 1

/-! ## RFM segmentation (`src/rfm_segmentation.py`) -/

/-- Row of the orders table. Timestamps are seconds since the epoch. -/
structure Order where
  order_id : Nat
  customer_id : Nat
  order_purchase_timestamp : Nat
  deriving DecidableEq

/-- Row of the payments table. -/
structure Payment where
  order_id : Nat
  payment_value : ℚ
  deriving DecidableEq

/-- Row of the customers table. -/
structure Customer where
  customer_id : Nat
  customer_unique_id : Nat
  deriving DecidableEq

/-- Sum of the payment values recorded for one order (0 when the order
has no payment record). -/
def orderPaymentTotal (payments : List Payment) (oid : Nat) : ℚ :=
  ((payments.filter (fun p => p.order_id = oid)).map Payment.payment_value).sum

/-- Embedding of `payments.groupby("order_id").agg(payment_value=("payment_value","sum"))`
(rfm_segmentation.py lines 25-30): one `(order_id, summed value)` row per
distinct order id. -/
def payments_agg (payments : List Payment) : List (Nat × ℚ) :=
  ((payments.map Payment.order_id).dedup).map
    (fun oid => (oid, orderPaymentTotal payments oid))

/-- Row of the dataframe `df` built in `build_rfm` (lines 32-36). `none`
models the NaN produced by an unmatched left merge. -/
structure MergedRow where
  order_id : Nat
  order_purchase_timestamp : Nat
  payment_value : Option ℚ
  customer_unique_id : Option Nat
  deriving DecidableEq

/-- Embedding of `orders.merge(payments_agg, on="order_id", how="left")
.merge(customers, on="customer_id", how="left")` (lines 32-36): every
order row is kept, matched against the unique `payments_agg` entry for
its order id and against every customer row sharing its customer id
(one all-NaN-extended row when there is none). -/
def mergeRows (orders : List Order) (payments : List Payment)
    (customers : List Customer) : List MergedRow :=
  orders.flatMap (fun o =>
    let pv := ((payments_agg payments).find? (fun e => e.1 = o.order_id)).map Prod.snd
    match customers.filter (fun c => c.customer_id = o.customer_id) with
    | [] => [⟨o.order_id, o.order_purchase_timestamp, pv, none⟩]
    | cs => cs.map (fun c =>
        ⟨o.order_id, o.order_purchase_timestamp, pv, some c.customer_unique_id⟩))

/-- Maximum of a list of timestamps (0 for the empty list). -/
def maxTimestamp (ts : List Nat) : Nat := ts.foldr max 0

/-- Embedding of `reference_date = df["order_purchase_timestamp"].max()`
(line 38). -/
def reference_date (rows : List MergedRow) : Nat :=
  maxTimestamp (rows.map MergedRow.order_purchase_timestamp)

/-- Row of the table returned by `build_rfm`. -/
structure RFMRow where
  customer_unique_id : Nat
  Recency : Nat
  Frequency : Nat
  Monetary : ℚ
  deriving DecidableEq

/-- Embedding of `RFMSegmenter.build_rfm` (lines 19-53): group the merged
dataframe by `customer_unique_id` (rows with a NaN key are dropped by
`groupby`) and aggregate `Recency = (reference_date - x.max()).days`
(whole days, i.e. floor of the difference in seconds over 86400),
`Frequency = nunique(order_id)` and `Monetary = sum(payment_value)`
(NaN payment values are skipped by the pandas sum). -/
def build_rfm (orders : List Order) (payments : List Payment)
    (customers : List Customer) : List RFMRow :=
  let df := mergeRows orders payments customers
  let ref := reference_date df
  ((df.filterMap MergedRow.customer_unique_id).dedup).map (fun u =>
    let g := df.filter (fun r => r.customer_unique_id = some u)
    { customer_unique_id := u
      Recency := (ref - maxTimestamp (g.map MergedRow.order_purchase_timestamp)) / 86400
      Frequency := ((g.map MergedRow.order_id).dedup).length
      Monetary := (g.filterMap MergedRow.payment_value).sum })

/-- Unique id of the customer record matching a `customer_id` (claim-side
formulation of the customers lookup). -/
def customerUid (customers : List Customer) (cid : Nat) : Option Nat :=
  (customers.find? (fun c => c.customer_id = cid)).map Customer.customer_unique_id

/-- Orders belonging to the customer with the given unique id (claim-side
formulation). -/
def customerOrders (orders : List Order) (customers : List Customer)
    (u : Nat) : List Order :=
  orders.filter (fun o => customerUid customers o.customer_id = some u)

/-! ## Revenue contribution (`src/rfm_segmentation.py` lines 133-148) -/

/-- Row of a segmented RFM table, as consumed by `revenue_contribution`:
only the `Monetary` and `Segment` columns matter (`Segment` is `none`
when the label is missing). -/
structure SegRow where
  customer_unique_id : Nat
  Monetary : ℚ
  Segment : Option String
  deriving DecidableEq

/-- Embedding of `RFMSegmenter.revenue_contribution` (lines 133-148):
`total_revenue` is the sum of the `Monetary` column, the table is grouped
by `Segment` (NaN keys dropped by `groupby`), and each segment row is
`(Segment, Monetary sum, Monetary sum / total_revenue * 100)`. -/
def revenue_contribution (rows : List SegRow) : List (String × ℚ × ℚ) :=
  let total_revenue := (rows.map SegRow.Monetary).sum
  ((rows.filterMap SegRow.Segment).dedup).map (fun s =>
    let m := ((rows.filter (fun r => r.Segment = some s)).map SegRow.Monetary).sum
    (s, m, m / total_revenue * 100))

/-! ## Delivery feature engineering (`src/feature_engineering.py`) -/

/-- Hour-of-day of an epoch-seconds timestamp. -/
def tsHour (ts : Nat) : Nat := ts / 3600 % 24

/-- Day of week, Monday = 0 (the epoch day, 1970-01-01, was a Thursday,
hence the shift by 3). -/
def tsDayofweek (ts : Nat) : Nat := (ts / 86400 + 3) % 7

/-- Calendar month (1-12) of an epoch-seconds timestamp, by the standard
civil-from-days computation on the era/day-of-era decomposition. -/
def tsMonth (ts : Nat) : Nat :=
  let doe := (ts / 86400 + 719468) % 146097
  let yoe := (doe - doe / 1460 + doe / 36524 - doe / 146096) / 365
  let doy := doe - (365 * yoe + yoe / 4 - yoe / 100)
  let mp := (5 * doy + 2) / 153
  if mp < 10 then mp + 3 else mp - 9

/-- Row of the dataframe handed to `DeliveryFeatureEngineer.transform`,
after `_parse_datetimes` (fields hold `none` where `pd.to_datetime(...,
errors="coerce")` produced NaT) and after `merge_additional_data` filled
the payment and customer columns. -/
structure DeliveryRecord where
  order_purchase_timestamp : Option Nat
  order_approved_at : Option Nat
  order_delivered_carrier_date : Option Nat
  order_delivered_customer_date : Option Nat
  order_estimated_delivery_date : Option Nat
  total_payment_value : ℚ
  payment_installments : ℚ
  customer_state : String
  deriving DecidableEq

/-- Label computed by `(order_delivered_customer_date >
order_estimated_delivery_date).astype(int)` (feature_engineering.py
lines 111-114); pandas comparisons involving NaT are `False`, hence the
0 in the catch-all case. -/
def isDelayedLabel (r : DeliveryRecord) : Nat :=
  match r.order_delivered_customer_date, r.order_estimated_delivery_date with
  | some d, some e => if e < d then 1 else 0
  | _, _ => 0

/-- Rows in which both target dates are present (the complement of what
`dropna(subset=[...])` removes). -/
def bothDatesPresent (r : DeliveryRecord) : Bool :=
  r.order_delivered_customer_date.isSome
    && r.order_estimated_delivery_date.isSome

/-- Embedding of `_create_target` (lines 99-118) in the case where both
date columns are present: drop every row in which either date is
missing, then attach the 0/1 delay label to each surviving row. -/
def create_target (rows : List DeliveryRecord) :
    List (DeliveryRecord × Nat) :=
  (rows.filter bothDatesPresent).map (fun r => (r, isDelayedLabel r))

/-- Difference `a - b` of two optional timestamps in hours (NaN, i.e.
`none`, when either operand is missing). -/
def hoursBetween (a b : Option Nat) : Option ℚ :=
  match a, b with
  | some x, some y => some (((x : ℚ) - (y : ℚ)) / 3600)
  | _, _ => none

/-- Difference `a - b` of two optional timestamps in days. -/
def daysBetween (a b : Option Nat) : Option ℚ :=
  match a, b with
  | some x, some y => some (((x : ℚ) - (y : ℚ)) / 86400)
  | _, _ => none

/-- Dataframe row after `_create_time_features` (lines 120-152): the
original columns plus the target and the derived time features. -/
structure TimedRow extends DeliveryRecord where
  is_delayed : Nat
  purchase_hour : Option Nat
  purchase_dayofweek : Option Nat
  purchase_month : Option Nat
  approval_delay_hours : Option ℚ
  carrier_delay_hours : Option ℚ
  estimated_delivery_days : Option ℚ
  deriving DecidableEq

/-- Embedding of `_create_time_features` (lines 120-152) on one labeled
row (the method only assigns new columns, so it is a per-row map). The
`predict_before_delivery=True` default suppresses `total_delivery_days`. -/
def create_time_features (p : DeliveryRecord × Nat) : TimedRow :=
  { toDeliveryRecord := p.1
    is_delayed := p.2
    purchase_hour := p.1.order_purchase_timestamp.map tsHour
    purchase_dayofweek := p.1.order_purchase_timestamp.map tsDayofweek
    purchase_month := p.1.order_purchase_timestamp.map tsMonth
    approval_delay_hours :=
      hoursBetween p.1.order_approved_at p.1.order_purchase_timestamp
    carrier_delay_hours :=
      hoursBetween p.1.order_delivered_carrier_date p.1.order_approved_at
    estimated_delivery_days :=
      daysBetween p.1.order_estimated_delivery_date p.1.order_purchase_timestamp }

/-- `Series.between(lo, hi)` on one optional value: inclusive bounds, and
`False` on NaN. -/
def betweenQ (x : Option ℚ) (lo hi : ℚ) : Bool :=
  match x with
  | some v => lo ≤ v && v ≤ hi
  | none => false

/-- Embedding of `_clean_data` (lines 154-169). -/
def clean_data (rows : List TimedRow)
    (max_approval_hours max_carrier_hours max_delivery_days : ℚ) :
    List TimedRow :=
  rows.filter (fun r =>
    betweenQ r.approval_delay_hours 0 max_approval_hours
      && betweenQ r.carrier_delay_hours 0 max_carrier_hours
      && betweenQ r.estimated_delivery_days 0 max_delivery_days)

/-- Row of the dataset returned by `transform`: the `FEATURE_COLUMNS`
plus the `is_delayed` target (`_get_final_dataset`, lines 211-221). -/
structure FinalRow where
  purchase_hour : Option Nat
  purchase_dayofweek : Option Nat
  purchase_month : Option Nat
  approval_delay_hours : Option ℚ
  carrier_delay_hours : Option ℚ
  estimated_delivery_days : Option ℚ
  total_payment_value : ℚ
  payment_installments : ℚ
  customer_state : String
  is_delayed : Nat
  deriving DecidableEq

/-- Column selection of `_get_final_dataset` on one row. -/
def get_final_dataset (r : TimedRow) : FinalRow :=
  { purchase_hour := r.purchase_hour
    purchase_dayofweek := r.purchase_dayofweek
    purchase_month := r.purchase_month
    approval_delay_hours := r.approval_delay_hours
    carrier_delay_hours := r.carrier_delay_hours
    estimated_delivery_days := r.estimated_delivery_days
    total_payment_value := r.total_payment_value
    payment_installments := r.payment_installments
    customer_state := r.customer_state
    is_delayed := r.is_delayed }

/-- Embedding of `DeliveryFeatureEngineer.transform` (lines 76-84) with
both date columns present: parse (already reflected in the `Option`
fields), create the target, create the time features, filter outliers,
select the final columns. -/
def transform (rows : List DeliveryRecord)
    (max_approval_hours max_carrier_hours max_delivery_days : ℚ) :
    List FinalRow :=
  (clean_data ((create_target rows).map create_time_features)
      max_approval_hours max_carrier_hours max_delivery_days).map
    get_final_dataset

/-! ## Concurrent logging model (`app/streamlit_app.py` lines 68-83)

Two threads (named `false` and `true`) each execute the locked part of
`log_prediction`: acquire `log_lock` (pc 0), evaluate
`os.path.exists(log_file)` (pc 1), run the chosen `to_csv` write (pc 2),
release the lock on leaving the `with` block (pc 3); pc 4 is done. Only
the acquire is guarded: a thread never re-checks the lock inside the
`with` body, so holding it there is a property to prove, not an
assumption. -/

/-- Control state: who holds `log_lock` and each thread's pc. -/
structure LockCtrl where
  lock : Option Bool
  pcA : Nat
  pcB : Nat
  deriving DecidableEq

/-- Program counter of thread `t`. -/
def pcOf (t : Bool) (s : LockCtrl) : Nat := if t then s.pcB else s.pcA

/-- Set the program counter of thread `t`. -/
def setPc (t : Bool) (v : Nat) (s : LockCtrl) : LockCtrl :=
  if t then { s with pcB := v } else { s with pcA := v }

/-- One control step of thread `t`; `none` when the thread is blocked on
the lock or already done. -/
def ctrlStep (t : Bool) (s : LockCtrl) : Option LockCtrl :=
  match pcOf t s with
  | 0 => if s.lock = none then some { setPc t 1 s with lock := some t } else none
  | 1 => some (setPc t 2 s)
  | 2 => some (setPc t 3 s)
  | 3 => some { setPc t 4 s with lock := none }
  | _ => none

/-- Run a schedule (list of thread choices) on the control automaton. -/
def runCtrl : List Bool → LockCtrl → Option LockCtrl
  | [], s => some s
  | t :: rest, s =>
    match ctrlStep t s with
    | some next => runCtrl rest next
    | none => none

/-- Initial control state: lock free, both threads at the acquire. -/
def ctrlInit : LockCtrl := { lock := none, pcA := 0, pcB := 0 }

/-- A schedule is valid when every step is enabled and both calls run to
completion. -/
def validSched (sched : List Bool) : Bool :=
  match runCtrl sched ctrlInit with
  | some s => decide (s.pcA = 4) && decide (s.pcB = 4)
  | none => false

/-- Along the execution of a schedule, every `to_csv` write step (pc 2)
is taken while its thread holds `log_lock`. -/
def writesLocked : List Bool → LockCtrl → Bool
  | [], _ => true
  | t :: rest, s =>
    (decide (pcOf t s ≠ 2) || decide (s.lock = some t)) &&
      (match ctrlStep t s with
       | some next => writesLocked rest next
       | none => true)

/-- Full state of the concurrent logging model: control state, the
branch each thread chose at its `os.path.exists` check, and the log
file. -/
structure LogFileState where
  ctrl : LockCtrl
  branchA : Bool
  branchB : Bool
  file : Option (List (List Cell))
  deriving DecidableEq

/-- One step of thread `t` in the full model: the existence check stores
whether the file exists, and the write step runs
`to_csv(mode="a", header=False)` (append the data row; the mode creates
the file when absent) or `to_csv(mode="w", header=True)` (truncate and
write header plus data row) according to the stored branch. -/
def logStep (eA eB : List Column) (t : Bool) (s : LogFileState) :
    Option LogFileState :=
  match pcOf t s.ctrl with
  | 0 => if s.ctrl.lock = none
      then some { s with ctrl := { setPc t 1 s.ctrl with lock := some t } }
      else none
  | 1 => some { s with
      ctrl := setPc t 2 s.ctrl
      branchA := if t then s.branchA else s.file.isSome
      branchB := if t then s.file.isSome else s.branchB }
  | 2 =>
    let e := if t then eB else eA
    let br := if t then s.branchB else s.branchA
    some { s with
      ctrl := setPc t 3 s.ctrl
      file := some (if br then s.file.getD [] ++ [valuesRow e]
                    else [headerRow e, valuesRow e]) }
  | 3 => some { s with ctrl := { setPc t 4 s.ctrl with lock := none } }
  | _ => none

/-- Run a schedule in the full model. -/
def runLog (eA eB : List Column) : List Bool → LogFileState → Option LogFileState
  | [], s => some s
  | t :: rest, s =>
    match logStep eA eB t s with
    | some next => runLog eA eB rest next
    | none => none

/-- Initial full state over a given log file. -/
def logInit (file : Option (List (List Cell))) : LogFileState :=
  { ctrl := ctrlInit, branchA := false, branchB := false, file := file }

/-- File contents after two sequential (non-interleaved) calls of
`log_prediction`, the first writing `e1`, the second `e2`. -/
def serialLog (file : Option (List (List Cell))) (e1 e2 : List Column) :
    List (List Cell) :=
  log_prediction_file (some (log_prediction_file file e1)) e2

/-- Merged row produced for one order when every `customer_id` occurs at
most once in the customers table: the payments_agg entry for its order
id and the unique id of its customer record. -/
def mergedRowOf (payments : List Payment) (customers : List Customer)
    (o : Order) : MergedRow :=
  { order_id := o.order_id
    order_purchase_timestamp := o.order_purchase_timestamp
    payment_value :=
      ((payments_agg payments).find? (fun e => e.1 = o.order_id)).map Prod.snd
    customer_unique_id := customerUid customers o.customer_id }

/-! ## Sample data for concrete instantiations -/

/-- Sample dashboard inputs (the widget default values). -/
def sampleInputs : DashboardInputs := ⟨12, 2, 6, 2, 12, 7, 150, 1⟩

/-- Sample orders table: customer 1 ordered on days 10 and 20, customer 2
on day 25 (timestamps in epoch seconds). -/
def sampleOrders : List Order := [⟨10, 1, 864000⟩, ⟨11, 1, 1728000⟩, ⟨12, 2, 2160000⟩]

/-- Sample payments table: orders 10 and 12 have a payment record, order
11 has none. -/
def samplePayments : List Payment := [⟨10, 50⟩, ⟨12, 30⟩]

/-- Sample customers table with distinct `customer_id`s. -/
def sampleCustomers : List Customer := [⟨1, 100⟩, ⟨2, 200⟩]

/-- RFM row of customer 100 over the sample tables: last purchase 5 whole
days before the latest order, 2 distinct orders, 50 total payments. -/
def sampleRFMRow : RFMRow := ⟨100, 5, 2, 50⟩

/-- Sample input to `transform`: one complete order delivered three days
after its estimate, and one order with the delivery date missing. -/
def sampleDelivery : List DeliveryRecord :=
  [{ order_purchase_timestamp := some 864000
     order_approved_at := some 871200
     order_delivered_carrier_date := some 914400
     order_delivered_customer_date := some 1728000
     order_estimated_delivery_date := some 1468800
     total_payment_value := 150
     payment_installments := 1
     customer_state := "SP" },
   { order_purchase_timestamp := some 0
     order_approved_at := some 3600
     order_delivered_carrier_date := some 7200
     order_delivered_customer_date := none
     order_estimated_delivery_date := some 604800
     total_payment_value := 30
     payment_installments := 2
     customer_state := "RJ" }]

/-- Final dataset row produced by `transform` for the first sample
order. -/
def sampleFinalRow : FinalRow :=
  { purchase_hour := some 0
    purchase_dayofweek := some 6
    purchase_month := some 1
    approval_delay_hours := some 2
    carrier_delay_hours := some 12
    estimated_delivery_days := some 7
    total_payment_value := 150
    payment_installments := 1
    customer_state := "SP"
    is_delayed := 1 }

/-- Sample segmented RFM table: two VIP rows and one Lost row, total
Monetary 120. -/
def sampleSegRows : List SegRow :=
  [⟨100, 60, some "VIP Customers"⟩, ⟨200, 40, some "Lost Customers"⟩,
   ⟨300, 20, some "VIP Customers"⟩]

/-- Feature order of a model whose `feature_name_` lists the same eight
features in a different order than the dashboard's dict literal. -/
def sampleFeatureOrder : List String := FEATURE_ORDER.reverse

end EnterpriseAnalytics

namespace EnterpriseAnalytics

/-! ## Theorems -/

/-- Claim C1: for every call to `log_prediction` in the monitoring
dashboard, the appended row consists of exactly the eight input feature
values in the model's feature order (`EXPECTED_FEATURES`, which the
schema check forces to be a permutation of the eight dashboard
features), followed by the probability, risk_level and timestamp
columns, in that order. -/
theorem C1_log_row_shape (i : DashboardInputs) (EXPECTED_FEATURES : List String)
    (probability : ℚ) (risk_level : String) (timestamp : Nat)
    (hnodup : EXPECTED_FEATURES.Nodup)
    (hschema : EXPECTED_FEATURES.toFinset = FEATURE_ORDER.toFinset) :
    valuesRow (log_entry (reindex (input_data i) EXPECTED_FEATURES)
        probability risk_level timestamp)
      = EXPECTED_FEATURES.map (lookupCell (input_data i))
        ++ [.num probability, .str risk_level, .time timestamp]
    ∧ EXPECTED_FEATURES.Perm FEATURE_ORDER
    ∧ lookupCell (input_data i) "purchase_hour" = .num i.purchase_hour
    ∧ lookupCell (input_data i) "purchase_dayofweek" = .num i.purchase_dayofweek
    ∧ lookupCell (input_data i) "purchase_month" = .num i.purchase_month
    ∧ lookupCell (input_data i) "approval_delay_hours" = .num i.approval_delay_hours
    ∧ lookupCell (input_data i) "carrier_delay_hours" = .num i.carrier_delay_hours
    ∧ lookupCell (input_data i) "estimated_delivery_days" = .num i.estimated_delivery_days
    ∧ lookupCell (input_data i) "total_payment_value" = .num i.total_payment_value
    ∧ lookupCell (input_data i) "payment_installments" = .num i.payment_installments := by
  refine ⟨?_, ?_, rfl, rfl, rfl, rfl, rfl, rfl, rfl, rfl⟩
  · simp [valuesRow, log_entry, reindex, List.map_append, List.map_map]
  · exact List.perm_of_nodup_nodup_toFinset_eq hnodup (by decide) hschema

/-- Concrete instantiation of `C1_log_row_shape` at the widget defaults
and the reversed feature order. -/
theorem C1_log_row_shape_witness :
    sampleFeatureOrder.Nodup
    ∧ sampleFeatureOrder.toFinset = FEATURE_ORDER.toFinset
    ∧ (valuesRow (log_entry (reindex (input_data sampleInputs) sampleFeatureOrder)
          (1/2) "Medium" 1700000000)
        = sampleFeatureOrder.map (lookupCell (input_data sampleInputs))
          ++ [.num (1/2), .str "Medium", .time 1700000000]
      ∧ sampleFeatureOrder.Perm FEATURE_ORDER
      ∧ lookupCell (input_data sampleInputs) "purchase_hour" = .num sampleInputs.purchase_hour
      ∧ lookupCell (input_data sampleInputs) "purchase_dayofweek" = .num sampleInputs.purchase_dayofweek
      ∧ lookupCell (input_data sampleInputs) "purchase_month" = .num sampleInputs.purchase_month
      ∧ lookupCell (input_data sampleInputs) "approval_delay_hours" = .num sampleInputs.approval_delay_hours
      ∧ lookupCell (input_data sampleInputs) "carrier_delay_hours" = .num sampleInputs.carrier_delay_hours
      ∧ lookupCell (input_data sampleInputs) "estimated_delivery_days" = .num sampleInputs.estimated_delivery_days
      ∧ lookupCell (input_data sampleInputs) "total_payment_value" = .num sampleInputs.total_payment_value
      ∧ lookupCell (input_data sampleInputs) "payment_installments" = .num sampleInputs.payment_installments) :=
  ⟨by decide, by decide,
   C1_log_row_shape sampleInputs sampleFeatureOrder (1/2) "Medium" 1700000000
     (by decide) (by decide)⟩

/-- Claim C2, counterexample: in the run where the SHAP explainability
call raises (predict button pressed, loading and prediction succeed),
the handler's message is rendered at position 3 of 7 and the monitoring,
feature-importance and insights sections are rendered after it, so the
dashboard does not halt after the message. -/
theorem C2_counterexample :
    ¬ haltsAfterHandlerMessage (streamlit_app true false false true) :=
  fun h => absurd (h 3 "Explainability unavailable" (by decide)) (by decide)

/-- Claim C2 (amended): the model-loading and prediction handlers display
a message and halt the script, producing no further output; the SHAP
explainability handler displays a message and continues, so the
monitoring, feature-importance and insights sections are still rendered
after it. -/
theorem C2_amended_halting : ∀ (pb pf sf : Bool),
    streamlit_app pb true pf sf = [.message "Model loading failed"]
    ∧ streamlit_app true false true sf = headerItems ++ [.message "Prediction failed"]
    ∧ streamlit_app true false false true
      = headerItems ++ riskOverviewItems
        ++ [.message "Explainability unavailable"] ++ tailItems := by
  decide

/-- Claim C4: the prediction log is append-only; on an existing file the
whole previous content is preserved as a prefix, exactly one data row
(no header) is appended, and a missing file is created as a header row
followed by the data row. -/
theorem C4_append_only (content : List (List Cell)) (entry : List Column) :
    log_prediction_file (some content) entry = content ++ [valuesRow entry]
    ∧ (log_prediction_file (some content) entry).take content.length = content
    ∧ (log_prediction_file (some content) entry).length = content.length + 1
    ∧ log_prediction_file none entry = [headerRow entry, valuesRow entry] := by
  refine ⟨rfl, ?_, ?_, rfl⟩ <;> simp [log_prediction_file]

/-- Claim C5: with thresholds satisfying `medium ≤ high`, the risk level
is High exactly when `p ≥ high`, Medium exactly when `medium ≤ p < high`
and Low exactly when `p < medium` (hence exactly one level applies). -/
theorem C5_risk_level_classification (p medium_threshold high_threshold : ℚ)
    (h : medium_threshold ≤ high_threshold) :
    (riskLevel p medium_threshold high_threshold = .High ↔ high_threshold ≤ p)
    ∧ (riskLevel p medium_threshold high_threshold = .Medium ↔
        medium_threshold ≤ p ∧ p < high_threshold)
    ∧ (riskLevel p medium_threshold high_threshold = .Low ↔ p < medium_threshold) := by
  unfold riskLevel
  split_ifs with h1 h2 <;> refine ⟨?_, ?_, ?_⟩ <;> simp_all <;> linarith

/-- Concrete instantiation of `C5_risk_level_classification` at
`p = 1/2` and the default thresholds. -/
theorem C5_risk_level_classification_witness :
    ((3 : ℚ)/10 ≤ 6/10)
    ∧ ((riskLevel (1/2) (3/10) (6/10) = .High ↔ (6 : ℚ)/10 ≤ 1/2)
      ∧ (riskLevel (1/2) (3/10) (6/10) = .Medium ↔
          (3 : ℚ)/10 ≤ 1/2 ∧ (1 : ℚ)/2 < 6/10)
      ∧ (riskLevel (1/2) (3/10) (6/10) = .Low ↔ (1 : ℚ)/2 < 3/10)) :=
  ⟨by norm_num, C5_risk_level_classification (1/2) (3/10) (6/10) (by norm_num)⟩

/-- Claim C6: when both date columns are present, every row of the
dataset returned by `DeliveryFeatureEngineer.transform` has `is_delayed`
equal to 0 or 1; each output row stems from an input row with both dates
present whose label is 1 exactly when the delivered date is strictly
later than the estimated date; and rows with either date missing are
removed before labeling, so dropping them from the input leaves the
output unchanged. -/
theorem C6_is_delayed_binary (rows : List DeliveryRecord)
    (max_approval_hours max_carrier_hours max_delivery_days : ℚ)
    (fr : FinalRow)
    (h : fr ∈ transform rows max_approval_hours max_carrier_hours max_delivery_days) :
    transform rows max_approval_hours max_carrier_hours max_delivery_days
      = transform (rows.filter bothDatesPresent)
          max_approval_hours max_carrier_hours max_delivery_days
    ∧ (fr.is_delayed = 0 ∨ fr.is_delayed = 1)
    ∧ ∃ r ∈ rows, ∃ d e, r.order_delivered_customer_date = some d
        ∧ r.order_estimated_delivery_date = some e
        ∧ (fr.is_delayed = 1 ↔ e < d)
        ∧ (fr.is_delayed = 0 ↔ ¬ e < d) := by
  refine ⟨?_, ?_⟩
  · unfold transform create_target
    rw [List.filter_filter]
    simp
  · unfold transform at h
    obtain ⟨tr, htr, rfl⟩ := List.mem_map.mp h
    unfold clean_data at htr
    obtain ⟨htr2, -⟩ := List.mem_filter.mp htr
    obtain ⟨p, hp, rfl⟩ := List.mem_map.mp htr2
    unfold create_target at hp
    obtain ⟨r, hr, rfl⟩ := List.mem_map.mp hp
    obtain ⟨hrmem, hboth⟩ := List.mem_filter.mp hr
    unfold bothDatesPresent at hboth
    rw [Bool.and_eq_true] at hboth
    obtain ⟨d, hd⟩ := Option.isSome_iff_exists.mp hboth.1
    obtain ⟨e, he⟩ := Option.isSome_iff_exists.mp hboth.2
    have hlab : (get_final_dataset (create_time_features (r, isDelayedLabel r))).is_delayed
        = isDelayedLabel r := rfl
    rw [hlab]
    unfold isDelayedLabel
    rw [hd, he]
    by_cases hde : e < d
    · exact ⟨Or.inr (by simp [hde]), r, hrmem, d, e, hd, he, by simp [hde]⟩
    · exact ⟨Or.inl (by simp [hde]), r, hrmem, d, e, hd, he, by simp [hde]⟩

/-- Concrete instantiation of `C6_is_delayed_binary` at the sample
delivery table and the surviving output row. -/
theorem C6_is_delayed_binary_witness :
    sampleFinalRow ∈ transform sampleDelivery 168 720 60
    ∧ transform sampleDelivery 168 720 60
      = transform (sampleDelivery.filter bothDatesPresent) 168 720 60
    ∧ (sampleFinalRow.is_delayed = 0 ∨ sampleFinalRow.is_delayed = 1) := by
  have hmem : sampleFinalRow ∈ transform sampleDelivery 168 720 60 := by
    have : transform sampleDelivery 168 720 60 = [sampleFinalRow] := by
      norm_num [transform, create_target, clean_data, create_time_features,
        get_final_dataset, sampleDelivery, sampleFinalRow, bothDatesPresent,
        isDelayedLabel, hoursBetween, daysBetween, betweenQ, tsHour, tsDayofweek,
        tsMonth, List.filter_cons, List.filterMap_cons]
    rw [this]
    exact List.mem_singleton.mpr rfl
  have happ := C6_is_delayed_binary sampleDelivery 168 720 60 sampleFinalRow hmem
  exact ⟨hmem, happ.1, happ.2.1⟩

/-- Claim C7: the dashboard prediction is a deterministic function of the
loaded model, the eight inputs and the thresholds; in particular it does
not depend on the log-file state or on the wall-clock timestamp. -/
theorem C7_prediction_deterministic (m : List Column → ℚ) (i : DashboardInputs)
    (EXPECTED_FEATURES : List String) (medium_threshold high_threshold : ℚ)
    (ts₁ ts₂ : Nat) (file₁ file₂ : Option (List (List Cell))) :
    (dashboard_predict_step m i EXPECTED_FEATURES medium_threshold high_threshold
        ts₁ file₁).1
      = (dashboard_predict_step m i EXPECTED_FEATURES medium_threshold high_threshold
        ts₂ file₂).1 := rfl

/-- Auxiliary: `find?` on a list pairing each key with a value finds the
pair of the key. -/
theorem find?_keyed_map (keys : List Nat) (g : Nat → ℚ) (oid : Nat) :
    ((keys.map (fun k => (k, g k))).find? (fun e => e.1 = oid))
      = if oid ∈ keys then some (oid, g oid) else none := by
  induction keys with
  | nil => rfl
  | cons k ks ih =>
    by_cases hk : k = oid
    · subst hk
      rw [List.map_cons, List.find?_cons_of_pos _ (by simp)]
      simp
    · rw [List.map_cons, List.find?_cons_of_neg _ (by simp [hk]), ih]
      by_cases hm : oid ∈ ks <;> simp [hm, List.mem_cons, Ne.symm hk]

/-- Auxiliary: the `payments_agg` lookup for an order id yields the
summed payment value when the order has a payment record, and nothing
otherwise. -/
theorem payments_agg_find (payments : List Payment) (oid : Nat) :
    ((payments_agg payments).find? (fun e => e.1 = oid))
      = if oid ∈ payments.map Payment.order_id
        then some (oid, orderPaymentTotal payments oid) else none := by
  unfold payments_agg
  rw [find?_keyed_map]
  by_cases hm : oid ∈ payments.map Payment.order_id <;>
    simp [hm, List.mem_dedup]

/-- Auxiliary: when customer ids are pairwise distinct, filtering the
customers table by a customer id returns exactly the record `find?`
returns. -/
theorem customers_filter_of_nodup (customers : List Customer) (cid : Nat)
    (h : (customers.map Customer.customer_id).Nodup) :
    customers.filter (fun c => c.customer_id = cid)
      = match customers.find? (fun c => c.customer_id = cid) with
        | some c => [c]
        | none => [] := by
  induction customers with
  | nil => rfl
  | cons c cs ih =>
    rw [List.map_cons, List.nodup_cons] at h
    by_cases hc : c.customer_id = cid
    · rw [List.filter_cons_of_pos (by simp [hc]),
        List.find?_cons_of_pos _ (by simp [hc])]
      have hnil : cs.filter (fun x => x.customer_id = cid) = [] := by
        rw [List.filter_eq_nil_iff]
        intro x hx hpx
        refine h.1 (List.mem_map.mpr ⟨x, hx, ?_⟩)
        simp only [decide_eq_true_eq] at hpx
        rw [hpx, hc]
      rw [hnil]
    · rw [List.filter_cons_of_neg (by simp [hc]),
        List.find?_cons_of_neg _ (by simp [hc])]
      exact ih h.2

/-- Auxiliary: under pairwise-distinct customer ids the two left merges
of `build_rfm` keep exactly one row per order. -/
theorem mergeRows_eq_map (orders : List Order) (payments : List Payment)
    (customers : List Customer)
    (h : (customers.map Customer.customer_id).Nodup) :
    mergeRows orders payments customers
      = orders.map (mergedRowOf payments customers) := by
  unfold mergeRows
  induction orders with
  | nil => rfl
  | cons o os ih =>
    rw [List.flatMap_cons, List.map_cons, ih]
    congr 1
    rw [customers_filter_of_nodup customers o.customer_id h]
    unfold mergedRowOf customerUid
    cases customers.find? (fun c => c.customer_id = o.customer_id) with
    | none => rfl
    | some c => rfl

/-- Auxiliary: the per-customer group of the merged dataframe is the
image of that customer's orders. -/
theorem mergeRows_group (orders : List Order) (payments : List Payment)
    (customers : List Customer)
    (h : (customers.map Customer.customer_id).Nodup) (u : Nat) :
    (mergeRows orders payments customers).filter
        (fun r => r.customer_unique_id = some u)
      = (customerOrders orders customers u).map (mergedRowOf payments customers) := by
  rw [mergeRows_eq_map orders payments customers h]
  unfold customerOrders
  induction orders with
  | nil => rfl
  | cons o os ih =>
    rw [List.map_cons]
    by_cases hc : customerUid customers o.customer_id = some u
    · rw [List.filter_cons_of_pos (by simp [mergedRowOf, hc]),
        List.filter_cons_of_pos (by simp [hc]), List.map_cons, ih]
    · rw [List.filter_cons_of_neg (by simp [mergedRowOf, hc]),
        List.filter_cons_of_neg (by simp [hc]), ih]

/-- Auxiliary: timestamps of the merged rows of a list of orders are the
timestamps of the orders. -/
theorem map_mergedRow_ts (payments : List Payment) (customers : List Customer)
    (l : List Order) :
    (l.map (mergedRowOf payments customers)).map MergedRow.order_purchase_timestamp
      = l.map Order.order_purchase_timestamp := by
  rw [List.map_map]; rfl

/-- Auxiliary: order ids of the merged rows of a list of orders are the
order ids of the orders. -/
theorem map_mergedRow_oid (payments : List Payment) (customers : List Customer)
    (l : List Order) :
    (l.map (mergedRowOf payments customers)).map MergedRow.order_id
      = l.map Order.order_id := by
  rw [List.map_map]; rfl

/-- Auxiliary: summing the present merged payment values over a list of
orders (pandas `sum` skips NaN) equals summing each order's payment
total, orders without payments contributing zero. -/
theorem sum_filterMap_payment (payments : List Payment)
    (customers : List Customer) (l : List Order) :
    ((l.map (mergedRowOf payments customers)).filterMap MergedRow.payment_value).sum
      = (l.map (fun o => orderPaymentTotal payments o.order_id)).sum := by
  induction l with
  | nil => rfl
  | cons o os ih =>
    have hf := payments_agg_find payments o.order_id
    by_cases hmem : o.order_id ∈ payments.map Payment.order_id
    · rw [if_pos hmem] at hf
      rw [List.map_cons, List.map_cons, List.sum_cons, List.filterMap_cons]
      simp only [mergedRowOf, hf]
      simp only [List.filterMap_map] at ih
      simp [ih]
    · rw [if_neg hmem] at hf
      have h0 : orderPaymentTotal payments o.order_id = 0 := by
        unfold orderPaymentTotal
        rw [List.filter_eq_nil_iff.mpr ?_]
        · rfl
        · intro p hp hep
          simp only [decide_eq_true_eq] at hep
          exact hmem (List.mem_map.mpr ⟨p, hp, hep⟩)
      rw [List.map_cons, List.map_cons, List.sum_cons, List.filterMap_cons]
      simp only [mergedRowOf, hf]
      simp only [List.filterMap_map] at ih
      simp [ih, h0]

/-- Claim C3: for every row of the table returned by
`RFMSegmenter.build_rfm` over tables with pairwise-distinct customer
ids, Recency is the number of whole days between the customer's most
recent purchase timestamp and the maximum purchase timestamp over all
orders, Frequency is the number of distinct order ids of the customer's
orders, and Monetary is the sum over the customer's orders of each
order's total payment value (orders with no payment record contributing
nothing). -/
theorem C3_build_rfm_correct (orders : List Order) (payments : List Payment)
    (customers : List Customer)
    (huniq : (customers.map Customer.customer_id).Nodup)
    (row : RFMRow) (hrow : row ∈ build_rfm orders payments customers) :
    row.Recency
      = (maxTimestamp (orders.map Order.order_purchase_timestamp)
          - maxTimestamp ((customerOrders orders customers row.customer_unique_id).map
              Order.order_purchase_timestamp)) / 86400
    ∧ row.Frequency
      = (((customerOrders orders customers row.customer_unique_id).map
          Order.order_id).dedup).length
    ∧ row.Monetary
      = ((customerOrders orders customers row.customer_unique_id).map
          (fun o => orderPaymentTotal payments o.order_id)).sum := by
  simp only [build_rfm] at hrow
  obtain ⟨u, hu, hrw⟩ := List.mem_map.mp hrow
  subst hrw
  dsimp only
  refine ⟨?_, ?_, ?_⟩
  · rw [mergeRows_group orders payments customers huniq u, map_mergedRow_ts]
    unfold reference_date
    rw [mergeRows_eq_map orders payments customers huniq, map_mergedRow_ts]
  · rw [mergeRows_group orders payments customers huniq u, map_mergedRow_oid]
  · rw [mergeRows_group orders payments customers huniq u,
      sum_filterMap_payment payments customers]

/-- Concrete instantiation of `C3_build_rfm_correct` at the sample
tables and the row of customer 100. -/
theorem C3_build_rfm_correct_witness :
    (sampleCustomers.map Customer.customer_id).Nodup
    ∧ sampleRFMRow ∈ build_rfm sampleOrders samplePayments sampleCustomers
    ∧ (sampleRFMRow.Recency
        = (maxTimestamp (sampleOrders.map Order.order_purchase_timestamp)
            - maxTimestamp ((customerOrders sampleOrders sampleCustomers
                sampleRFMRow.customer_unique_id).map Order.order_purchase_timestamp)) / 86400
      ∧ sampleRFMRow.Frequency
        = (((customerOrders sampleOrders sampleCustomers
            sampleRFMRow.customer_unique_id).map Order.order_id).dedup).length
      ∧ sampleRFMRow.Monetary
        = ((customerOrders sampleOrders sampleCustomers
            sampleRFMRow.customer_unique_id).map
            (fun o => orderPaymentTotal samplePayments o.order_id)).sum) := by
  have hmem : sampleRFMRow ∈ build_rfm sampleOrders samplePayments sampleCustomers := by
    simp only [build_rfm, sampleOrders, samplePayments, sampleCustomers, sampleRFMRow]
    norm_num [mergeRows, payments_agg, orderPaymentTotal, reference_date, maxTimestamp]
    refine ⟨100, by decide, rfl, by decide, by decide, ?_⟩
    norm_num [List.filterMap_cons, List.sum_cons, List.sum_nil]
  exact ⟨by decide, hmem,
    C3_build_rfm_correct sampleOrders samplePayments sampleCustomers
      (by decide) sampleRFMRow hmem⟩

/-- Auxiliary: a pointwise sum of two mapped functions splits. -/
theorem sum_map_add_distrib (S : List String) (g h : String → ℚ) :
    (S.map (fun s => g s + h s)).sum = (S.map g).sum + (S.map h).sum := by
  induction S with
  | nil => simp
  | cons a as ih => simp only [List.map_cons, List.sum_cons, ih]; ring

/-- Auxiliary: summing an indicator of a single key over a duplicate-free
list containing that key yields the indicated value. -/
theorem sum_map_single (S : List String) (t : String) (x : ℚ)
    (hnd : S.Nodup) (ht : t ∈ S) :
    (S.map (fun s => if t = s then x else 0)).sum = x := by
  induction S with
  | nil => cases ht
  | cons a as ih =>
    rw [List.nodup_cons] at hnd
    rcases List.mem_cons.mp ht with h | h
    · subst h
      rw [List.map_cons, List.sum_cons, if_pos rfl]
      have hz : as.map (fun s => if t = s then x else 0) = as.map (fun _ => 0) := by
        refine List.map_congr_left ?_
        intro s hs
        rw [if_neg]
        intro he
        exact hnd.1 (he ▸ hs)
      rw [hz]
      simp
    · have hat : ¬ t = a := by
        intro he
        exact hnd.1 (he ▸ h)
      rw [List.map_cons, List.sum_cons, if_neg hat, ih hnd.2 h]
      ring

/-- Auxiliary: when every row's segment lies in a duplicate-free list of
segments, summing the per-segment Monetary fibers recovers the total
Monetary sum. -/
theorem sum_fiberwise_rows (S : List String) (hnd : S.Nodup)
    (rows : List SegRow)
    (hcov : ∀ r ∈ rows, ∃ s ∈ S, r.Segment = some s) :
    (S.map (fun s =>
        ((rows.filter (fun r => r.Segment = some s)).map SegRow.Monetary).sum)).sum
      = (rows.map SegRow.Monetary).sum := by
  induction rows with
  | nil => simp
  | cons r rest ih =>
    obtain ⟨t, htS, hseg⟩ := hcov r (List.mem_cons_self r rest)
    have hrest := ih (fun x hx => hcov x (List.mem_cons_of_mem r hx))
    have hsplit : S.map (fun s =>
          (((r :: rest).filter (fun x => x.Segment = some s)).map SegRow.Monetary).sum)
        = S.map (fun s => (if t = s then r.Monetary else 0)
            + ((rest.filter (fun x => x.Segment = some s)).map SegRow.Monetary).sum) := by
      refine List.map_congr_left ?_
      intro s hs
      rw [List.filter_cons]
      by_cases hts : t = s
      · subst hts
        rw [if_pos (by simp [hseg]), if_pos rfl, List.map_cons, List.sum_cons]
      · rw [if_neg (by simp [hseg, hts]), if_neg hts, zero_add]
    rw [hsplit, sum_map_add_distrib, sum_map_single S t r.Monetary hnd htS, hrest,
      List.map_cons, List.sum_cons]

/-- Auxiliary: a mapped division-rescaling factors out of a list sum. -/
theorem sum_map_div_mul (S : List String) (f : String → ℚ) (T c : ℚ) :
    (S.map (fun s => f s / T * c)).sum = (S.map f).sum / T * c := by
  induction S with
  | nil => simp
  | cons a as ih => simp only [List.map_cons, List.sum_cons, ih]; ring

/-- Claim C9: for every segmented RFM table in which every row carries a
Segment label and the total Monetary value is nonzero, the `Revenue_%`
column returned by `RFMSegmenter.revenue_contribution` sums to exactly
100, because each entry is that segment's Monetary sum over the grand
total times 100 and the segments partition the rows. -/
theorem C9_revenue_percent_total (rows : List SegRow)
    (hall : ∀ r ∈ rows, (SegRow.Segment r).isSome)
    (htot : (rows.map SegRow.Monetary).sum ≠ 0) :
    ((revenue_contribution rows).map (fun e => e.2.2)).sum = 100 := by
  unfold revenue_contribution
  have hnd : ((rows.filterMap SegRow.Segment).dedup).Nodup := List.nodup_dedup _
  have hcov : ∀ r ∈ rows, ∃ s ∈ (rows.filterMap SegRow.Segment).dedup,
      r.Segment = some s := by
    intro r hr
    obtain ⟨s, hs⟩ := Option.isSome_iff_exists.mp (hall r hr)
    exact ⟨s, List.mem_dedup.mpr (List.mem_filterMap.mpr ⟨r, hr, hs⟩), hs⟩
  rw [List.map_map]
  have hcomp : ((fun e => e.2.2) ∘ (fun s =>
        ((s : String),
         ((rows.filter (fun r => r.Segment = some s)).map SegRow.Monetary).sum,
         ((rows.filter (fun r => r.Segment = some s)).map SegRow.Monetary).sum
           / (rows.map SegRow.Monetary).sum * 100)))
      = fun s => ((rows.filter (fun r => r.Segment = some s)).map SegRow.Monetary).sum
          / (rows.map SegRow.Monetary).sum * 100 := rfl
  rw [hcomp, sum_map_div_mul, sum_fiberwise_rows _ hnd rows hcov, div_self htot]
  ring

/-- Concrete instantiation of `C9_revenue_percent_total` at the sample
segmented table. -/
theorem C9_revenue_percent_total_witness :
    sampleSegRows.all (fun r => (SegRow.Segment r).isSome) = true
    ∧ (sampleSegRows.map SegRow.Monetary).sum ≠ 0
    ∧ ((revenue_contribution sampleSegRows).map (fun e => e.2.2)).sum = 100 := by
  have htot : (sampleSegRows.map SegRow.Monetary).sum ≠ 0 := by
    norm_num [sampleSegRows]
  exact ⟨by decide, htot,
    C9_revenue_percent_total sampleSegRows (by decide) htot⟩

/-- Claim C8: on a one-row input frame, `predict_proba` yields a row of
(at least) two probability columns, so the `[0][1]` access of both
dashboards is in bounds and selects the positive-class probability. -/
theorem C8_predict_proba_two_columns (m : List Column → ℚ) (row : List Column) :
    ∃ probs, (predict_proba m [row]).get? 0 = some probs
      ∧ 2 ≤ probs.length ∧ probs.get? 1 = some (m row) :=
  ⟨[1 - m row, m row], rfl, by simp, rfl⟩

set_option maxRecDepth 4096 in
/-- Auxiliary: every write step along any schedule of the two logging
calls is taken while its thread holds `log_lock`. -/
theorem writesLocked_all : ∀ f : Fin 8 → Bool,
    writesLocked (List.ofFn f) ctrlInit = true := by
  decide

set_option maxRecDepth 4096 in
/-- Auxiliary: the only valid complete schedules of two logging calls run
one call entirely before the other, because the second acquire blocks
until the first release. -/
theorem validSched_shape : ∀ f : Fin 8 → Bool,
    validSched (List.ofFn f) = true →
      List.ofFn f = [false, false, false, false, true, true, true, true]
      ∨ List.ofFn f = [true, true, true, true, false, false, false, false] := by
  decide

/-- Auxiliary: the thread-A-first schedule produces the serial file of
call A followed by call B. -/
theorem runLog_A_first (file : Option (List (List Cell))) (eA eB : List Column) :
    (runLog eA eB [false, false, false, false, true, true, true, true]
        (logInit file)).map LogFileState.file
      = some (some (serialLog file eA eB)) := by
  cases file <;> rfl

/-- Auxiliary: the thread-B-first schedule produces the serial file of
call B followed by call A. -/
theorem runLog_B_first (file : Option (List (List Cell))) (eA eB : List Column) :
    (runLog eA eB [true, true, true, true, false, false, false, false]
        (logInit file)).map LogFileState.file
      = some (some (serialLog file eB eA)) := by
  cases file <;> rfl

/-- Claim C10: in every valid complete interleaving of two concurrent
`log_prediction` calls, each `to_csv` write is performed while the
writing thread holds the global `log_lock`, and consequently the two
writes do not interleave: the final file is the one produced by the two
calls run serially in one of the two orders. -/
theorem C10_log_lock_mutual_exclusion (f : Fin 8 → Bool)
    (file : Option (List (List Cell))) (eA eB : List Column)
    (h : validSched (List.ofFn f) = true) :
    writesLocked (List.ofFn f) ctrlInit = true
    ∧ ((runLog eA eB (List.ofFn f) (logInit file)).map LogFileState.file
          = some (some (serialLog file eA eB))
      ∨ (runLog eA eB (List.ofFn f) (logInit file)).map LogFileState.file
          = some (some (serialLog file eB eA))) := by
  refine ⟨writesLocked_all f, ?_⟩
  rcases validSched_shape f h with hf | hf <;> rw [hf]
  · exact Or.inl (runLog_A_first file eA eB)
  · exact Or.inr (runLog_B_first file eA eB)

/-- Concrete instantiation of `C10_log_lock_mutual_exclusion` at the
thread-B-first schedule over a missing log file. -/
theorem C10_log_lock_mutual_exclusion_witness :
    validSched (List.ofFn (fun i : Fin 8 => decide ((i : Nat) < 4))) = true
    ∧ (writesLocked (List.ofFn (fun i : Fin 8 => decide ((i : Nat) < 4))) ctrlInit = true
      ∧ ((runLog [("a", Cell.na)] [("b", Cell.na)]
            (List.ofFn (fun i : Fin 8 => decide ((i : Nat) < 4)))
            (logInit none)).map LogFileState.file
            = some (some (serialLog none [("a", Cell.na)] [("b", Cell.na)]))
        ∨ (runLog [("a", Cell.na)] [("b", Cell.na)]
            (List.ofFn (fun i : Fin 8 => decide ((i : Nat) < 4)))
            (logInit none)).map LogFileState.file
            = some (some (serialLog none [("b", Cell.na)] [("a", Cell.na)])))) :=
  ⟨by decide,
   C10_log_lock_mutual_exclusion (fun i : Fin 8 => decide ((i : Nat) < 4))
     none [("a", Cell.na)] [("b", Cell.na)] (by decide)⟩

end EnterpriseAnalytics
